import Mathlib

/-!
Verification of the contact-manager web application (`src/app.py`).

The file shallowly embeds the application's data model and route handlers:
the SQLite-backed tables become lists of records, each Flask route becomes a
pure function from the store (and the request data) to a response together
with the updated store, and SQL operations (`filter_by`, `ilike`,
`order_by`, `count`) are translated operation by operation.  The two case
foldings of the search pipeline are distinct and modelled separately:
Python's `str.lower` is a Unicode case mapping (`pythonLower`, modelled
exactly on the Basic Latin and Latin-1 blocks), while SQLite's `lower()`
and case-insensitive `LIKE` fold ASCII letters only (`Char.toLower`).
-/

namespace ContactApp

/-- ASCII-only lowercasing of a character list: the case folding SQLite's
`lower()` and case-insensitive `LIKE` perform. -/
def lowerL (l : List Char) : List Char := l.map Char.toLower

/-- ASCII lowercasing of a string: the folding SQLite's `lower()`/`LIKE`
applies.  Python's `str.lower` agrees with it on ASCII strings. -/
def lowerS (s : String) : String := ⟨lowerL s.data⟩

/-- Python's `str.lower` on one character: a Unicode case mapping, modelled
exactly on the Basic Latin and Latin-1 Supplement blocks.  ASCII `A`-`Z`
and the Latin-1 uppercase letters `À`-`Þ` (except `×`) map to their
lowercase counterpart (code point + 32); characters of other blocks are
left unchanged by this model.  Unlike SQLite's folding it lowers non-ASCII
letters such as `Ä`. -/
def pythonLowerChar (c : Char) : Char :=
  if (65 ≤ c.toNat ∧ c.toNat ≤ 90) ∨
      ((192 ≤ c.toNat ∧ c.toNat ≤ 222) ∧ c.toNat ≠ 215) then
    Char.ofNat (c.toNat + 32)
  else c

/-- Python's `str.lower`, as applied by the route to the search term. -/
def pythonLower (s : String) : String := ⟨s.data.map pythonLowerChar⟩

/-- SQL `LIKE` pattern matching over character lists: `%` matches any
(possibly empty) sequence, `_` matches exactly one character, and any other
pattern character matches itself.  Case folding is done by the caller. -/
def likeMatch : List Char → List Char → Bool
  | [], t => t.isEmpty
  | p :: ps, t =>
    if p = '%' then t.tails.any (fun suf => likeMatch ps suf)
    else
      match t with
      | [] => false
      | c :: ts => (p == '_' || p == c) && likeMatch ps ts

/-- SQLAlchemy's case-insensitive `ilike`: both the pattern and the text are
case folded and then matched as a `LIKE` pattern. -/
def ilike (pattern text : String) : Bool :=
  likeMatch (lowerL pattern.data) (lowerL text.data)

/-- A row of the `contact` table (class `Contact` in `src/app.py`):
integer primary key, required name, optional phone and email, and the
owning user's id (`user_id`, non-nullable foreign key). -/
structure Contact where
  id : Nat
  name : String
  phone : Option String
  email : Option String
  user_id : Nat
deriving DecidableEq, Repr

/-- The JSON object produced by `Contact.to_dict`: `{id, name, phone, email}`
(the owner id is not serialized). -/
structure ContactJson where
  id : Nat
  name : String
  phone : Option String
  email : Option String
deriving DecidableEq, Repr

/-- `Contact.to_dict` from `src/app.py`. -/
def Contact.to_dict (c : Contact) : ContactJson :=
  ⟨c.id, c.name, c.phone, c.email⟩

/-- The contact store: the rows of the `contact` table in insertion order. -/
structure DB where
  contacts : List Contact
deriving DecidableEq

/-- A JSON request body for the contact endpoints.  Each field is `none`
when the key is absent from the payload, `some none` when the key is present
with value `null`, and `some (some s)` when it carries the string `s`. -/
structure Payload where
  name : Option (Option String) := none
  phone : Option (Option String) := none
  email : Option (Option String) := none
deriving DecidableEq

/-- Python's `dict.get(key, default)`: the stored value when the key is
present (possibly `None`), the default otherwise. -/
def pyGetD : Option (Option String) → Option String → Option String
  | none, d => d
  | some v, _ => v

/-- Python's `dict.get(key)`: `None` when the key is absent. -/
def pyGet (f : Option (Option String)) : Option String := pyGetD f none

/-- An HTTP response from an API route: either a success with a status code
and a JSON body, or an error with a status code and an error message. -/
inductive Resp (α : Type) where
  | success (code : Nat) (body : α)
  | failure (code : Nat) (error : String)
deriving DecidableEq

/-- Lexicographic comparison of character lists by code point; on UTF-8
encoded text this is exactly SQLite's default `BINARY` collation, the order
used by `order_by(Contact.name)`. -/
def charListLe : List Char → List Char → Bool
  | [], _ => true
  | _ :: _, [] => false
  | a :: as, b :: bs => if a = b then charListLe as bs else decide (a < b)

/-- String comparison under the `BINARY` collation. -/
def strLe (a b : String) : Bool := charListLe a.data b.data

/-- The `order_by(Contact.name)` ordering relation: names ascending. -/
def nameLe (a b : Contact) : Prop := strLe a.name b.name = true

instance : DecidableRel nameLe :=
  fun a b => inferInstanceAs (Decidable (strLe a.name b.name = true))

theorem charListLe_total : ∀ x y : List Char, charListLe x y = true ∨ charListLe y x = true
  | [], _ => Or.inl rfl
  | _ :: _, [] => Or.inr rfl
  | a :: as, b :: bs => by
    by_cases h : a = b
    · subst h
      simpa [charListLe] using charListLe_total as bs
    · rcases lt_or_gt_of_ne h with hlt | hgt
      · exact Or.inl (by simp [charListLe, h, hlt])
      · exact Or.inr (by simp [charListLe, Ne.symm h, hgt])

theorem charListLe_trans : ∀ x y z : List Char,
    charListLe x y = true → charListLe y z = true → charListLe x z = true
  | [], _, _, _, _ => rfl
  | _ :: _, [], _, h, _ => by simp [charListLe] at h
  | _ :: _, _ :: _, [], _, h => by simp [charListLe] at h
  | a :: as, b :: bs, c :: cs, h₁, h₂ => by
    by_cases hab : a = b <;> by_cases hbc : b = c
    · subst hab; subst hbc
      simp only [charListLe, if_pos rfl] at h₁ h₂ ⊢
      exact charListLe_trans as bs cs h₁ h₂
    · subst hab
      simpa [charListLe, hbc] using h₂
    · subst hbc
      simpa [charListLe, hab] using h₁
    · simp only [charListLe, if_neg hab, if_neg hbc, decide_eq_true_eq] at h₁ h₂
      have hac : a < c := lt_trans h₁ h₂
      simp [charListLe, ne_of_lt hac, hac]

instance : IsTotal Contact nameLe := ⟨fun a b => charListLe_total a.name.data b.name.data⟩

instance : IsTrans Contact nameLe :=
  ⟨fun _ _ _ h₁ h₂ => charListLe_trans _ _ _ h₁ h₂⟩

/-- `query.order_by(Contact.name)`: a sort of the selected rows that is
sorted by name ascending. -/
def orderByName (l : List Contact) : List Contact := List.insertionSort nameLe l

/-- The search filter of `get_contacts`: the (already Python-lowercased)
search term, wrapped in `%...%`, matched with `ilike` against name, phone
and email.  A `NULL` column never matches (`or_` of SQL `NULL` comparisons). -/
def matchesSearch (search_term : String) (c : Contact) : Bool :=
  let pat := "%" ++ search_term ++ "%"
  ilike pat c.name ||
    (match c.phone with | some p => ilike pat p | none => false) ||
    (match c.email with | some e => ilike pat e | none => false)

/-- Route `GET /api/contacts` (`get_contacts` in `src/app.py`): the rows
with `user_id = current_user.id`, filtered by the search term when it is
non-empty, ordered by name, serialized with `to_dict`. -/
def get_contacts (db : DB) (uid : Nat) (search : String) : List ContactJson :=
  let search_term := pythonLower search
  let base := db.contacts.filter (fun c => c.user_id == uid)
  let rows := if search_term.isEmpty then base else base.filter (matchesSearch search_term)
  (orderByName rows).map Contact.to_dict

/-- The row lookup shared by the single-contact routes:
`Contact.query.filter_by(id=contact_id, user_id=current_user.id).first()`. -/
def findOwned (db : DB) (uid cid : Nat) : Option Contact :=
  db.contacts.find? (fun c => c.id == cid && c.user_id == uid)

/-- Route `GET /api/contacts/<id>` (`get_contact` in `src/app.py`). -/
def get_contact (db : DB) (uid cid : Nat) : Resp ContactJson :=
  match findOwned db uid cid with
  | some c => .success 200 c.to_dict
  | none => .failure 404 "Contact not found or access denied"

/-- The primary key SQLite assigns to a freshly inserted row: one more than
the largest key in the table (1 for an empty table). -/
def nextContactId (l : List Contact) : Nat := (l.map (·.id)).foldr max 0 + 1

/-- Route `POST /api/contacts` (`add__contact` in `src/app.py`): 400 when
the body is missing or `data.get('name')` is falsy (absent, `null`, or the
empty string); otherwise a new row is inserted and returned with 201. -/
def add__contact (db : DB) (uid : Nat) (data : Option Payload) :
    Resp ContactJson × DB :=
  match data with
  | none => (.failure 400 "Name is a required field.", db)
  | some d =>
    match pyGet d.name with
    | none => (.failure 400 "Name is a required field.", db)
    | some n =>
      if n.isEmpty then (.failure 400 "Name is a required field.", db)
      else
        let c : Contact :=
          ⟨nextContactId db.contacts, n, pyGet d.phone, pyGet d.email, uid⟩
        (.success 201 c.to_dict, ⟨db.contacts ++ [c]⟩)

/-- The three field assignments of `update_contact`.  The guard of the
route guarantees `data.get('name')` is the non-empty string `n`, so
`data.get('name', contact.name)` is `n`; phone and email keep the old value
exactly when their key is absent. -/
def applyUpdate (d : Payload) (n : String) (c : Contact) : Contact :=
  { c with name := n, phone := pyGetD d.phone c.phone, email := pyGetD d.email c.email }

/-- In-place mutation of the row returned by `.first()`: the first matching
row is replaced, every other row is untouched. -/
def updateFirst (p : Contact → Bool) (c' : Contact) : List Contact → List Contact
  | [] => []
  | c :: cs => if p c then c' :: cs else c :: updateFirst p c' cs

/-- Route `PUT /api/contacts/<id>` (`update_contact` in `src/app.py`):
404 when no owned row matches, then 400 when the name is falsy, otherwise
the row is overwritten and returned with 200. -/
def update_contact (db : DB) (uid cid : Nat) (data : Option Payload) :
    Resp ContactJson × DB :=
  match findOwned db uid cid with
  | none => (.failure 404 "Contact not found or access denied", db)
  | some c =>
    match data with
    | none => (.failure 400 "Name is a required field.", db)
    | some d =>
      match pyGet d.name with
      | none => (.failure 400 "Name is a required field.", db)
      | some n =>
        if n.isEmpty then (.failure 400 "Name is a required field.", db)
        else
          let c' := applyUpdate d n c
          (.success 200 c'.to_dict,
            ⟨updateFirst (fun x => x.id == cid && x.user_id == uid) c' db.contacts⟩)

/-- Route `DELETE /api/contacts/<id>` (`delete_contact` in `src/app.py`):
404 when no owned row matches, otherwise the row is removed. -/
def delete_contact (db : DB) (uid cid : Nat) : Resp String × DB :=
  match findOwned db uid cid with
  | none => (.failure 404 "Contact not found or access denied", db)
  | some _ =>
    (.success 200 "Contact deleted successfully",
      ⟨db.contacts.eraseP (fun c => c.id == cid && c.user_id == uid)⟩)

/-- Route `GET /api/contacts/count` (`get_contacts_count` in `src/app.py`). -/
def get_contacts_count (db : DB) (uid : Nat) : Nat :=
  (db.contacts.filter (fun c => c.user_id == uid)).length

/-- A row of the `user` table: integer primary key, unique username, and the
werkzeug password hash. -/
structure User where
  id : Nat
  username : String
  password_hash : String
deriving DecidableEq

/-- Observable outcome of the `login` route: redirect when already
authenticated, a session for `uid` on success, or the flash
`Invalid username or password. Please try again.` -/
inductive LoginResult where
  | alreadyAuthenticated
  | success (uid : Nat)
  | invalid
deriving DecidableEq

/-- Route `POST /login` (`login` in `src/app.py`).  `check` is werkzeug's
`check_password_hash`, kept abstract since it is library code. -/
def login (check : String → String → Bool) (authed : Bool) (users : List User)
    (username password : String) : LoginResult :=
  if authed then .alreadyAuthenticated
  else
    match users.find? (fun u => u.username == username) with
    | some user => if check user.password_hash password then .success user.id else .invalid
    | none => .invalid

/-- Observable outcome of the `signup` route: redirect when already
authenticated, the `required` flash, the `already exists` flash, or the
success flash with a redirect to login. -/
inductive SignupResult where
  | alreadyAuthenticated
  | emptyFields
  | conflict
  | created
deriving DecidableEq

/-- The primary key SQLite assigns to a freshly inserted user row. -/
def nextUserId (l : List User) : Nat := (l.map (·.id)).foldr max 0 + 1

/-- Route `POST /signup` (`signup` in `src/app.py`).  `hash` is werkzeug's
`generate_password_hash` (a salted one-way hash), kept abstract since it is
library code. -/
def signup (hash : String → String) (authed : Bool) (users : List User)
    (username password : String) : SignupResult × List User :=
  if authed then (.alreadyAuthenticated, users)
  else if username.isEmpty || password.isEmpty then (.emptyFields, users)
  else
    match users.find? (fun u => u.username == username) with
    | some _ => (.conflict, users)
    | none => (.created, users ++ [⟨nextUserId users, username, hash password⟩])

/-- The specification's search predicate on strings: `s` occurs in `t` as a
case-insensitive substring. -/
def specContains (s t : String) : Bool :=
  decide (lowerL s.data <:+: lowerL t.data)

/-- The specification's search predicate on served contact objects: the
search string occurs case-insensitively in the name, the phone, or the
email. -/
def specMatches (s : String) (j : ContactJson) : Bool :=
  specContains s j.name || j.phone.any (specContains s) || j.email.any (specContains s)

/-- Search strings with no SQL `LIKE` metacharacter. -/
def wildcardFree (s : String) : Prop := ∀ c ∈ s.data, c ≠ '%' ∧ c ≠ '_'

instance (s : String) : Decidable (wildcardFree s) :=
  inferInstanceAs (Decidable (∀ c ∈ s.data, c ≠ '%' ∧ c ≠ '_'))

/-- Strings made of ASCII characters only.  On these, Python's Unicode
lowercasing and SQLite's ASCII-only folding coincide. -/
def asciiOnly (s : String) : Prop := ∀ c ∈ s.data, c.toNat < 128

instance (s : String) : Decidable (asciiOnly s) :=
  inferInstanceAs (Decidable (∀ c ∈ s.data, c.toNat < 128))

end ContactApp

namespace ContactApp

/-! ### Helper lemmas -/

theorem le_foldr_max (l : List Nat) : ∀ a ∈ l, a ≤ l.foldr max 0 := by
  induction l with
  | nil => intro a ha; cases ha
  | cons x xs ih =>
    intro a ha
    rcases List.mem_cons.mp ha with h | h
    · subst h; exact le_max_left _ _
    · exact le_trans (ih a h) (le_max_right _ _)

theorem id_lt_nextContactId {l : List Contact} {c : Contact} (h : c ∈ l) :
    c.id < nextContactId l :=
  Nat.lt_succ_of_le (le_foldr_max _ _ (List.mem_map_of_mem (·.id) h))

theorem findOwned_eq_none_iff (db : DB) (uid cid : Nat) :
    findOwned db uid cid = none ↔ ∀ c ∈ db.contacts, ¬(c.id = cid ∧ c.user_id = uid) := by
  simp [findOwned, List.find?_eq_none]

/-- If the table satisfies its primary-key invariant (no duplicate ids), a
lookup scoped to user `B` finds nothing when the row with that id belongs to
a different user. -/
theorem findOwned_eq_none_of_other_owner {db : DB} {A B : Nat} {C : Contact}
    (hnd : (db.contacts.map (·.id)).Nodup) (hmem : C ∈ db.contacts)
    (hA : C.user_id = A) (hBA : B ≠ A) : findOwned db B C.id = none := by
  refine (findOwned_eq_none_iff db B C.id).mpr (fun c hc h => ?_)
  have hcC : c = C := List.inj_on_of_nodup_map hnd hc hmem h.1
  exact hBA (by rw [← h.2, hcC, hA])

end ContactApp

namespace ContactApp

/-! ### C1: ownership isolation -/

/-- C1: for distinct owners A ≠ B and a contact C owned by A (in a store
satisfying the primary-key invariant), `get_contact`, `update_contact` and
`delete_contact` performed by B against C's id all fail with 404 and leave
the store (hence C) unchanged. -/
theorem ownership_isolation (db : DB) (A B : Nat) (C : Contact) (data : Option Payload)
    (hnd : (db.contacts.map (·.id)).Nodup) (hmem : C ∈ db.contacts)
    (hA : C.user_id = A) (hBA : B ≠ A) :
    get_contact db B C.id = .failure 404 "Contact not found or access denied" ∧
    update_contact db B C.id data = (.failure 404 "Contact not found or access denied", db) ∧
    delete_contact db B C.id = (.failure 404 "Contact not found or access denied", db) := by
  have h := findOwned_eq_none_of_other_owner hnd hmem hA hBA
  exact ⟨by simp [get_contact, h], by simp [update_contact, h], by simp [delete_contact, h]⟩

/-- Witness for C1 at a concrete store. -/
theorem ownership_isolation_witness :
    get_contact ⟨[⟨1, "Bob", none, none, 1⟩]⟩ 2 1
        = .failure 404 "Contact not found or access denied" ∧
    update_contact ⟨[⟨1, "Bob", none, none, 1⟩]⟩ 2 1 none
        = (.failure 404 "Contact not found or access denied", ⟨[⟨1, "Bob", none, none, 1⟩]⟩) ∧
    delete_contact ⟨[⟨1, "Bob", none, none, 1⟩]⟩ 2 1
        = (.failure 404 "Contact not found or access denied", ⟨[⟨1, "Bob", none, none, 1⟩]⟩) :=
  ownership_isolation ⟨[⟨1, "Bob", none, none, 1⟩]⟩ 1 2 ⟨1, "Bob", none, none, 1⟩ none
    (by decide) (by decide) rfl (by decide)

/-! ### C3: count agrees with list -/

/-- C3: for every owner and store, `get_contacts_count` equals the length of
the unfiltered `get_contacts` listing. -/
theorem count_eq_length_list (db : DB) (uid : Nat) :
    get_contacts_count db uid = (get_contacts db uid "").length := by
  have hempty : (pythonLower "").isEmpty = true := rfl
  simp only [get_contacts, get_contacts_count, hempty, if_pos, List.length_map, orderByName]
  exact ((List.perm_insertionSort nameLe _).length_eq).symm

end ContactApp

namespace ContactApp

theorem pyGet_map_some (o : Option String) : pyGet (o.map some) = o := by
  cases o <;> rfl

theorem pyGet_some (v : Option String) : pyGet (some v) = v := rfl

theorem isEmpty_false_of_ne {n : String} (h : n ≠ "") : n.isEmpty = false := by
  rcases hb : n.isEmpty with _ | _
  · rfl
  · exact absurd ((String.isEmpty_iff n).mp hb) h

/-! ### C5: create validation -/

/-- C5: `add__contact` fails with 400 and inserts nothing exactly when the
name field is absent, `null` or empty (including a missing body); in every
other case it appends one new row and returns it with 201. -/
theorem add__contact_validation (db : DB) (uid : Nat) (data : Option Payload) :
    ((data = none ∨ ∃ d, data = some d ∧ (pyGet d.name = none ∨ pyGet d.name = some "")) →
      add__contact db uid data = (.failure 400 "Name is a required field.", db)) ∧
    (∀ d n, data = some d → pyGet d.name = some n → n ≠ "" →
      add__contact db uid data =
        (.success 201 ⟨nextContactId db.contacts, n, pyGet d.phone, pyGet d.email⟩,
          ⟨db.contacts ++ [⟨nextContactId db.contacts, n, pyGet d.phone, pyGet d.email, uid⟩]⟩)) := by
  constructor
  · rintro (rfl | ⟨d, rfl, hbad | hbad⟩)
    · rfl
    · simp [add__contact, hbad]
    · simp [add__contact, hbad, String.isEmpty_iff]
  · rintro d n rfl hn hne
    simp [add__contact, hn, isEmpty_false_of_ne hne, Contact.to_dict]

/-- Witness for C5 on the success branch at a concrete input. -/
theorem add__contact_validation_witness :
    add__contact ⟨[]⟩ 7 (some ⟨some (some "Bob"), some (some "555-1111"), none⟩) =
      (.success 201 ⟨1, "Bob", some "555-1111", none⟩,
        ⟨[⟨1, "Bob", some "555-1111", none, 7⟩]⟩) :=
  (add__contact_validation ⟨[]⟩ 7 _).2 _ "Bob" rfl rfl (by decide)

/-! ### C6: create/get round trip -/

/-- C6: creating a contact with a non-empty name and then fetching the new
id under the same owner succeeds with exactly the supplied fields, and the
new id was not assigned to any pre-existing contact. -/
theorem create_then_get (db : DB) (uid : Nat) (n : String) (ph em : Option String)
    (hn : n ≠ "") :
    add__contact db uid (some ⟨some (some n), ph.map some, em.map some⟩) =
      (.success 201 ⟨nextContactId db.contacts, n, ph, em⟩,
        ⟨db.contacts ++ [⟨nextContactId db.contacts, n, ph, em, uid⟩]⟩) ∧
    get_contact ⟨db.contacts ++ [⟨nextContactId db.contacts, n, ph, em, uid⟩]⟩ uid
        (nextContactId db.contacts) =
      .success 200 ⟨nextContactId db.contacts, n, ph, em⟩ ∧
    nextContactId db.contacts ∉ db.contacts.map (·.id) := by
  refine ⟨?_, ?_, ?_⟩
  · simp [add__contact, isEmpty_false_of_ne hn, pyGet_map_some, pyGet_some, Contact.to_dict]
  · have hnone :
        db.contacts.find?
          (fun c => c.id == nextContactId db.contacts && c.user_id == uid) = none := by
      refine List.find?_eq_none.mpr (fun x hx => ?_)
      have := id_lt_nextContactId hx
      simp [Nat.ne_of_lt this]
    simp [get_contact, findOwned, hnone, Contact.to_dict]
  · intro hmem
    rcases List.mem_map.mp hmem with ⟨x, hx, hid⟩
    exact absurd (hid ▸ id_lt_nextContactId hx) (lt_irrefl _)

/-- Witness for C6 at a concrete input. -/
theorem create_then_get_witness :
    add__contact ⟨[⟨1, "Old", none, none, 7⟩]⟩ 7
        (some ⟨some (some "Bob"), some (some "555-1111"), none⟩) =
      (.success 201 ⟨2, "Bob", some "555-1111", none⟩,
        ⟨[⟨1, "Old", none, none, 7⟩, ⟨2, "Bob", some "555-1111", none, 7⟩]⟩) ∧
    get_contact ⟨[⟨1, "Old", none, none, 7⟩, ⟨2, "Bob", some "555-1111", none, 7⟩]⟩ 7 2 =
      .success 200 ⟨2, "Bob", some "555-1111", none⟩ ∧
    (2 : Nat) ∉ [⟨1, "Old", none, none, 7⟩].map (fun c : Contact => c.id) :=
  create_then_get ⟨[⟨1, "Old", none, none, 7⟩]⟩ 7 "Bob" (some "555-1111") none (by decide)

end ContactApp

namespace ContactApp

/-! ### C4: update validation -/

/-- C4: `update_contact` fails with 404 when no contact with that id owned
by the owner exists; when the row is found it fails with 400 when the name
is absent, `null` or empty; otherwise it returns 200 with the updated
record, whose fields take every supplied value. -/
theorem update_contact_spec (db : DB) (uid cid : Nat) (data : Option Payload) :
    ((∀ c ∈ db.contacts, ¬(c.id = cid ∧ c.user_id = uid)) →
      update_contact db uid cid data = (.failure 404 "Contact not found or access denied", db)) ∧
    (∀ c, findOwned db uid cid = some c →
      ((data = none ∨ ∃ d, data = some d ∧ (pyGet d.name = none ∨ pyGet d.name = some "")) →
        update_contact db uid cid data = (.failure 400 "Name is a required field.", db)) ∧
      (∀ d n, data = some d → pyGet d.name = some n → n ≠ "" →
        update_contact db uid cid data =
          (.success 200 ⟨c.id, n, pyGetD d.phone c.phone, pyGetD d.email c.email⟩,
            ⟨updateFirst (fun x => x.id == cid && x.user_id == uid)
              (applyUpdate d n c) db.contacts⟩) ∧
        (∀ v, d.phone = some v → pyGetD d.phone c.phone = v) ∧
        (∀ v, d.email = some v → pyGetD d.email c.email = v))) := by
  constructor
  · intro h
    simp [update_contact, (findOwned_eq_none_iff db uid cid).mpr h]
  · intro c hc
    constructor
    · rintro (rfl | ⟨d, rfl, hbad | hbad⟩)
      · simp [update_contact, hc]
      · simp [update_contact, hc, hbad]
      · simp [update_contact, hc, hbad, String.isEmpty_iff]
    · rintro d n rfl hn hne
      refine ⟨?_, ?_, ?_⟩
      · simp [update_contact, hc, hn, isEmpty_false_of_ne hne, applyUpdate, Contact.to_dict]
      · rintro v hv; simp [pyGetD, hv]
      · rintro v hv; simp [pyGetD, hv]

/-- Witness for C4 on the success branch at a concrete input. -/
theorem update_contact_spec_witness :
    update_contact ⟨[⟨1, "Bob", some "555-1111", none, 7⟩]⟩ 7 1
        (some ⟨some (some "Bob B."), none, some (some "b@x.io")⟩) =
      (.success 200 ⟨1, "Bob B.", some "555-1111", some "b@x.io"⟩,
        ⟨[⟨1, "Bob B.", some "555-1111", some "b@x.io", 7⟩]⟩) :=
  (((update_contact_spec ⟨[⟨1, "Bob", some "555-1111", none, 7⟩]⟩ 7 1
      (some ⟨some (some "Bob B."), none, some (some "b@x.io")⟩)).2
    ⟨1, "Bob", some "555-1111", none, 7⟩ rfl).2 _ "Bob B." rfl rfl (by decide)).1

/-! ### C7: frame of update -/

/-- C7: a successful update whose payload omits the phone (or email) key
leaves that field at its prior value, and never changes the row's id or its
owner reference. -/
theorem update_frame (db : DB) (uid cid : Nat) (d : Payload) (n : String) (c : Contact)
    (hfind : findOwned db uid cid = some c) (hn : pyGet d.name = some n) (hne : n ≠ "") :
    update_contact db uid cid (some d) =
      (.success 200 (applyUpdate d n c).to_dict,
        ⟨updateFirst (fun x => x.id == cid && x.user_id == uid)
          (applyUpdate d n c) db.contacts⟩) ∧
    (d.phone = none → (applyUpdate d n c).phone = c.phone) ∧
    (d.email = none → (applyUpdate d n c).email = c.email) ∧
    (applyUpdate d n c).id = c.id ∧
    (applyUpdate d n c).user_id = c.user_id := by
  refine ⟨?_, ?_, ?_, rfl, rfl⟩
  · simp [update_contact, hfind, hn, isEmpty_false_of_ne hne]
  · rintro hv; simp [applyUpdate, pyGetD, hv]
  · rintro hv; simp [applyUpdate, pyGetD, hv]

/-- Witness for C7: updating only the name keeps phone and email. -/
theorem update_frame_witness :
    update_contact ⟨[⟨1, "Bob", some "555-1111", none, 7⟩]⟩ 7 1
        (some ⟨some (some "Bob B."), none, none⟩) =
      (.success 200 ⟨1, "Bob B.", some "555-1111", none⟩,
        ⟨[⟨1, "Bob B.", some "555-1111", none, 7⟩]⟩) ∧
    some "555-1111" = some "555-1111" ∧ (none : Option String) = none ∧
    (1 : Nat) = 1 ∧ (7 : Nat) = 7 := by
  have h := update_frame ⟨[⟨1, "Bob", some "555-1111", none, 7⟩]⟩ 7 1
    ⟨some (some "Bob B."), none, none⟩ "Bob B." ⟨1, "Bob", some "555-1111", none, 7⟩
    rfl rfl (by decide)
  exact ⟨h.1, h.2.1 rfl, h.2.2.1 rfl, h.2.2.2.1, h.2.2.2.2⟩

/-! ### C10: error atomicity -/

/-- C10: whenever `add__contact`, `update_contact` or `delete_contact`
returns an error response, the contact store is returned unchanged
(`get_contact` does not touch the store at all: it is a pure function of
it). -/
theorem error_atomicity (db : DB) (uid cid : Nat) (data : Option Payload) :
    (∀ code msg, (add__contact db uid data).1 = .failure code msg →
      (add__contact db uid data).2 = db) ∧
    (∀ code msg, (update_contact db uid cid data).1 = .failure code msg →
      (update_contact db uid cid data).2 = db) ∧
    (∀ code msg, (delete_contact db uid cid).1 = .failure code msg →
      (delete_contact db uid cid).2 = db) := by
  refine ⟨?_, ?_, ?_⟩
  · intro code msg h
    rcases data with _ | d
    · rfl
    · rcases hn : pyGet d.name with _ | n
      · simp [add__contact, hn]
      · rcases he : n.isEmpty with _ | _
        · simp [add__contact, hn, he] at h
        · simp [add__contact, hn, he]
  · intro code msg h
    rcases hc : findOwned db uid cid with _ | c
    · simp [update_contact, hc]
    · rcases data with _ | d
      · simp [update_contact, hc]
      · rcases hn : pyGet d.name with _ | n
        · simp [update_contact, hc, hn]
        · rcases he : n.isEmpty with _ | _
          · simp [update_contact, hc, hn, he] at h
          · simp [update_contact, hc, hn, he]
  · intro code msg h
    rcases hc : findOwned db uid cid with _ | c
    · simp [delete_contact, hc]
    · simp [delete_contact, hc] at h

/-- Witness for C10: a failing update on an empty store leaves it empty. -/
theorem error_atomicity_witness : (update_contact ⟨[]⟩ 1 1 none).2 = ⟨[]⟩ :=
  (error_atomicity ⟨[]⟩ 1 1 none).2.1 404 "Contact not found or access denied" (by decide)

end ContactApp

namespace ContactApp

/-! ### C8: uniform authentication failure -/

/-- C8: a login attempt by an existing user with a password whose hash check
fails and a login attempt under a username that matches no user produce the
same observable outcome: the one generic invalid-credentials result. -/
theorem login_uniform_failure (check : String → String → Bool)
    (users₁ : List User) (u₁ p₁ : String) (user : User)
    (users₂ : List User) (u₂ p₂ : String)
    (h₁ : users₁.find? (fun u => u.username == u₁) = some user)
    (h₂ : check user.password_hash p₁ = false)
    (h₃ : users₂.find? (fun u => u.username == u₂) = none) :
    login check false users₁ u₁ p₁ = login check false users₂ u₂ p₂ ∧
    login check false users₁ u₁ p₁ = .invalid := by
  simp [login, h₁, h₂, h₃]

/-- Witness for C8: wrong password for `alice` versus unknown user `bob`. -/
theorem login_uniform_failure_witness :
    login (fun _ _ => false) false [⟨1, "alice", "h"⟩] "alice" "pw" =
      login (fun _ _ => false) false [] "bob" "x" ∧
    login (fun _ _ => false) false [⟨1, "alice", "h"⟩] "alice" "pw" = .invalid :=
  login_uniform_failure (fun _ _ => false) [⟨1, "alice", "h"⟩] "alice" "pw"
    ⟨1, "alice", "h"⟩ [] "bob" "x" (by decide) rfl rfl

/-! ### C9: signup -/

/-- C9: `signup` (from an unauthenticated session) rejects an empty username
or password, rejects a username that already exists, persists no user in
either failure case, and otherwise persists exactly one new user whose
stored credential is the hash of the password. -/
theorem signup_spec (hash : String → String) (users : List User) (u p : String) :
    ((u = "" ∨ p = "") → signup hash false users u p = (.emptyFields, users)) ∧
    (u ≠ "" → p ≠ "" → (∃ w ∈ users, w.username = u) →
      signup hash false users u p = (.conflict, users)) ∧
    (u ≠ "" → p ≠ "" → (∀ w ∈ users, w.username ≠ u) →
      signup hash false users u p =
        (.created, users ++ [⟨nextUserId users, u, hash p⟩])) := by
  refine ⟨?_, ?_, ?_⟩
  · rintro (rfl | rfl) <;> simp [signup, String.isEmpty_iff]
  · intro hu hp ⟨w, hw, hwu⟩
    have hfind : users.find? (fun x => x.username == u) ≠ none := by
      intro hnone
      exact absurd hwu (by simpa using List.find?_eq_none.mp hnone w hw)
    rcases Option.ne_none_iff_exists'.mp hfind with ⟨v, hv⟩
    simp [signup, isEmpty_false_of_ne hu, isEmpty_false_of_ne hp, hv]
  · intro hu hp hnone
    have hfind : users.find? (fun x => x.username == u) = none :=
      List.find?_eq_none.mpr (fun x hx => by simpa using hnone x hx)
    simp [signup, isEmpty_false_of_ne hu, isEmpty_false_of_ne hp, hfind]

/-- Witness for C9: a fresh signup appends one user holding the hash. -/
theorem signup_spec_witness :
    signup (fun p => "hashed:" ++ p) false [⟨1, "alice", "h1"⟩] "bob" "pw123" =
      (.created, [⟨1, "alice", "h1"⟩, ⟨2, "bob", "hashed:pw123"⟩]) :=
  (signup_spec (fun p => "hashed:" ++ p) [⟨1, "alice", "h1"⟩] "bob" "pw123").2.2
    (by decide) (by decide) (by decide)

end ContactApp

namespace ContactApp

/-! ### Case-folding lemmas -/

theorem toNat_ofNat_of_small {m : Nat} (h : m < 55296) : (Char.ofNat m).toNat = m := by
  have hv : m.isValidChar := Or.inl h
  simp [Char.ofNat, hv, Char.ofNatAux, Char.toNat, UInt32.toNat]

theorem toLower_of_not_upper {c : Char} (h : ¬(65 ≤ c.toNat ∧ c.toNat ≤ 90)) :
    c.toLower = c := by
  rw [Char.toLower, if_neg (fun hc => h ⟨hc.1, hc.2⟩)]

theorem toNat_toLower_of_upper {c : Char} (h : 65 ≤ c.toNat ∧ c.toNat ≤ 90) :
    c.toLower.toNat = c.toNat + 32 := by
  rw [Char.toLower, if_pos ⟨h.1, h.2⟩]
  exact toNat_ofNat_of_small (by omega)

theorem toLower_idem (c : Char) : c.toLower.toLower = c.toLower := by
  by_cases h : 65 ≤ c.toNat ∧ c.toNat ≤ 90
  · refine toLower_of_not_upper ?_
    rw [toNat_toLower_of_upper h]
    omega
  · rw [toLower_of_not_upper h, toLower_of_not_upper h]

/-- Lowercasing only maps letters into letters, so a character whose code
point is below 97 (such as `%` or `_`) is hit only by itself. -/
theorem toLower_ne_of_ne {c x : Char} (hx : x.toNat < 97) (hcx : c ≠ x) :
    c.toLower ≠ x := by
  by_cases h : 65 ≤ c.toNat ∧ c.toNat ≤ 90
  · intro he
    have := toNat_toLower_of_upper h
    rw [he] at this
    omega
  · rw [toLower_of_not_upper h]
    exact hcx

theorem lowerL_idem (l : List Char) : lowerL (lowerL l) = lowerL l := by
  simp only [lowerL, List.map_map]
  exact List.map_congr_left (fun c _ => toLower_idem c)

theorem lowerL_wildcardFree {s : String} (hs : wildcardFree s) :
    ∀ c ∈ lowerL s.data, c ≠ '%' ∧ c ≠ '_' := by
  intro c hc
  rcases List.mem_map.mp hc with ⟨c₀, hc₀, rfl⟩
  obtain ⟨h1, h2⟩ := hs c₀ hc₀
  exact ⟨toLower_ne_of_ne (by decide) h1, toLower_ne_of_ne (by decide) h2⟩

/-! ### `LIKE` pattern lemmas -/

theorem likeMatch_pct_nil (t : List Char) : likeMatch ['%'] t = true := by
  simp only [likeMatch, if_pos rfl]
  exact List.any_eq_true.mpr ⟨[], (List.mem_tails [] t).mpr List.nil_suffix, rfl⟩

/-- A wildcard-free literal followed by a single trailing `%` matches
exactly the texts having the literal as a prefix. -/
theorem likeMatch_literal (w : List Char) (hw : ∀ c ∈ w, c ≠ '%' ∧ c ≠ '_') :
    ∀ t, likeMatch (w ++ ['%']) t = w.isPrefixOf t := by
  induction w with
  | nil => intro t; simpa using likeMatch_pct_nil t
  | cons a w' ih =>
    intro t
    obtain ⟨ha1, ha2⟩ := hw a (List.mem_cons_self a w')
    have hw' : ∀ c ∈ w', c ≠ '%' ∧ c ≠ '_' := fun c hc => hw c (List.mem_cons_of_mem a hc)
    cases t with
    | nil => simp [likeMatch, ha1, List.isPrefixOf]
    | cons c ts =>
      simp [likeMatch, ha1, List.isPrefixOf, ih hw', beq_eq_false_iff_ne.mpr ha2]

theorem likeMatch_pct_iff (ps t : List Char) :
    likeMatch ('%' :: ps) t = true ↔ ∃ suf, suf <:+ t ∧ likeMatch ps suf = true := by
  simp only [likeMatch, if_true, List.any_eq_true, List.mem_tails]

/-- The code's `ilike '%term%'` test coincides with the specification's
case-insensitive substring test whenever the search term contains no
`LIKE` metacharacter. -/
theorem ilike_pattern_eq_specContains (s t : String) (hs : wildcardFree s) :
    ilike ("%" ++ lowerS s ++ "%") t = specContains s t := by
  have hdata : ("%" ++ lowerS s ++ "%").data = '%' :: (lowerL s.data ++ ['%']) := by
    simp [String.data_append, lowerS]
  have hlower : lowerL ('%' :: (lowerL s.data ++ ['%'])) = '%' :: (lowerL s.data ++ ['%']) := by
    have h1 : Char.toLower '%' = '%' := rfl
    simp only [lowerL, List.map_cons, List.map_append, List.map_nil, h1]
    rw [show List.map Char.toLower (List.map Char.toLower s.data)
        = List.map Char.toLower s.data from lowerL_idem s.data]
  have hiff : likeMatch ('%' :: (lowerL s.data ++ ['%'])) (lowerL t.data) = true ↔
      lowerL s.data <:+: lowerL t.data := by
    rw [likeMatch_pct_iff]
    constructor
    · rintro ⟨suf, hsuf, hm⟩
      rw [likeMatch_literal _ (lowerL_wildcardFree hs)] at hm
      exact List.infix_iff_prefix_suffix.mpr ⟨suf, List.isPrefixOf_iff_prefix.mp hm, hsuf⟩
    · intro hinf
      rcases List.infix_iff_prefix_suffix.mp hinf with ⟨mid, hpre, hsuf⟩
      refine ⟨mid, hsuf, ?_⟩
      rw [likeMatch_literal _ (lowerL_wildcardFree hs)]
      exact List.isPrefixOf_iff_prefix.mpr hpre
  unfold ilike specContains
  rw [hdata, hlower]
  by_cases h : lowerL s.data <:+: lowerL t.data
  · simp [h, hiff.mpr h]
  · simp only [h, decide_False]
    exact Bool.eq_false_iff.mpr (fun hx => h (hiff.mp hx))

end ContactApp

namespace ContactApp

theorem specContains_empty (t : String) : specContains "" t = true := by
  simp [specContains, show lowerL "".data = [] from rfl, List.nil_infix]

theorem specMatches_empty (j : ContactJson) : specMatches "" j = true := by
  simp [specMatches, specContains_empty]

/-- The code's per-row search test agrees with the specification's, for
wildcard-free search strings. -/
theorem matchesSearch_eq_specMatches {s : String} (hs : wildcardFree s) (c : Contact) :
    matchesSearch (lowerS s) c = specMatches s c.to_dict := by
  have h := fun t => ilike_pattern_eq_specContains s t hs
  cases hp : c.phone <;> cases he : c.email <;>
    simp [matchesSearch, specMatches, Contact.to_dict, hp, he, h, Option.any]

theorem pythonLowerChar_eq_toLower_of_ascii {c : Char} (h : c.toNat < 128) :
    pythonLowerChar c = Char.toLower c := by
  by_cases hu : 65 ≤ c.toNat ∧ c.toNat ≤ 90
  · rw [pythonLowerChar, if_pos (Or.inl hu), Char.toLower, if_pos ⟨hu.1, hu.2⟩]
  · rw [pythonLowerChar, if_neg (fun hc => hc.elim hu (fun h2 => by omega)),
      toLower_of_not_upper hu]

/-- On ASCII strings Python's Unicode lowering and SQLite's ASCII-only
folding coincide. -/
theorem pythonLower_eq_lowerS_of_ascii {s : String} (h : asciiOnly s) :
    pythonLower s = lowerS s := by
  show String.mk (s.data.map pythonLowerChar) = String.mk (lowerL s.data)
  exact congrArg String.mk (List.map_congr_left fun c hc =>
    pythonLowerChar_eq_toLower_of_ascii (h c hc))

theorem pythonLower_isEmpty_iff (s : String) : (pythonLower s).isEmpty = true ↔ s = "" := by
  rw [String.isEmpty_iff]
  constructor
  · intro h
    have hdata : s.data.map pythonLowerChar = [] := congrArg String.data h
    have hd : s.data = [] := List.map_eq_nil_iff.mp hdata
    cases s with
    | mk d => rw [show d = [] from hd]
  · rintro rfl; rfl

/-- For an ASCII search string the whole per-row pipeline — Python lowering
of the term, then the `ilike` test — agrees with the specification's
case-insensitive substring test. -/
theorem matchesSearch_pythonLower_eq {s : String} (hs : wildcardFree s)
    (ha : asciiOnly s) (c : Contact) :
    matchesSearch (pythonLower s) c = specMatches s c.to_dict := by
  rw [pythonLower_eq_lowerS_of_ascii ha]
  exact matchesSearch_eq_specMatches hs c

theorem get_contacts_empty_eq (db : DB) (uid : Nat) :
    get_contacts db uid "" =
      (orderByName (db.contacts.filter (fun c => c.user_id == uid))).map Contact.to_dict := rfl

/-! ### C2 (amended): search returns the matching subset, sorted -/

/-- C2 (amended): for a search string that is wildcard-free and ASCII, the
search listing is a permutation of the subset of the full listing whose
name, phone or email contains the string case-insensitively; every listing
is ordered by name ascending; and the unfiltered listing shows exactly the
owner's contacts. -/
theorem get_contacts_search_spec (db : DB) (uid : Nat) (s : String)
    (hs : wildcardFree s) (ha : asciiOnly s) :
    ((get_contacts db uid s).Perm ((get_contacts db uid "").filter (specMatches s))) ∧
    ((get_contacts db uid s).Pairwise (fun a b => strLe a.name b.name = true)) ∧
    ((get_contacts db uid "").Perm
      ((db.contacts.filter (fun c => c.user_id == uid)).map Contact.to_dict)) := by
  have hsorted : ∀ rows : List Contact,
      ((orderByName rows).map Contact.to_dict).Pairwise
        (fun a b => strLe a.name b.name = true) := fun rows =>
    List.Pairwise.map Contact.to_dict (fun _ _ hab => hab)
      (List.sorted_insertionSort nameLe rows)
  have hperm0 : (get_contacts db uid "").Perm
      ((db.contacts.filter (fun c => c.user_id == uid)).map Contact.to_dict) := by
    rw [get_contacts_empty_eq]
    exact (List.perm_insertionSort nameLe _).map Contact.to_dict
  refine ⟨?_, ?_, hperm0⟩
  · by_cases hse : s = ""
    · subst hse
      rw [List.filter_eq_self.mpr (fun a _ => specMatches_empty a)]
    · have hne : (pythonLower s).isEmpty = false := by
        rcases hb : (pythonLower s).isEmpty with _ | _
        · rfl
        · exact absurd ((pythonLower_isEmpty_iff s).mp hb) hse
      have hunfold : get_contacts db uid s =
          (orderByName ((db.contacts.filter (fun c => c.user_id == uid)).filter
            (matchesSearch (pythonLower s)))).map Contact.to_dict := by
        simp [get_contacts, hne]
      rw [hunfold, get_contacts_empty_eq]
      have h1 := (List.perm_insertionSort nameLe
        ((db.contacts.filter (fun c => c.user_id == uid)).filter
          (matchesSearch (pythonLower s)))).map Contact.to_dict
      have h2 : (db.contacts.filter (fun c => c.user_id == uid)).filter
            (matchesSearch (pythonLower s)) =
          (db.contacts.filter (fun c => c.user_id == uid)).filter
            (specMatches s ∘ Contact.to_dict) :=
        List.filter_congr (fun c _ => matchesSearch_pythonLower_eq hs ha c)
      have h3 : ((db.contacts.filter (fun c => c.user_id == uid)).filter
            (specMatches s ∘ Contact.to_dict)).map Contact.to_dict =
          ((db.contacts.filter (fun c => c.user_id == uid)).map Contact.to_dict).filter
            (specMatches s) :=
        (List.filter_map Contact.to_dict (db.contacts.filter (fun c => c.user_id == uid))).symm
      have h23 : ((db.contacts.filter (fun c => c.user_id == uid)).filter
            (matchesSearch (pythonLower s))).map Contact.to_dict =
          ((db.contacts.filter (fun c => c.user_id == uid)).map Contact.to_dict).filter
            (specMatches s) := by rw [h2, h3]
      have h4 := (((List.perm_insertionSort nameLe
        (db.contacts.filter (fun c => c.user_id == uid))).map Contact.to_dict).symm).filter
          (specMatches s)
      exact (h23 ▸ h1).trans h4
  · by_cases hse : s = ""
    · subst hse
      rw [get_contacts_empty_eq]
      exact hsorted _
    · have hne : (pythonLower s).isEmpty = false := by
        rcases hb : (pythonLower s).isEmpty with _ | _
        · rfl
        · exact absurd ((pythonLower_isEmpty_iff s).mp hb) hse
      have hunfold : get_contacts db uid s =
          (orderByName ((db.contacts.filter (fun c => c.user_id == uid)).filter
            (matchesSearch (pythonLower s)))).map Contact.to_dict := by
        simp [get_contacts, hne]
      rw [hunfold]
      exact hsorted _

/-- Witness for the amended C2 at a concrete store and search string. -/
theorem get_contacts_search_spec_witness :
    ((get_contacts ⟨[⟨1, "Bob", some "555", none, 1⟩, ⟨2, "Al", none, none, 1⟩]⟩ 1 "b").Perm
      ((get_contacts ⟨[⟨1, "Bob", some "555", none, 1⟩, ⟨2, "Al", none, none, 1⟩]⟩ 1 "").filter
        (specMatches "b"))) ∧
    ((get_contacts ⟨[⟨1, "Bob", some "555", none, 1⟩, ⟨2, "Al", none, none, 1⟩]⟩ 1 "b").Pairwise
      (fun a b => strLe a.name b.name = true)) ∧
    ((get_contacts ⟨[⟨1, "Bob", some "555", none, 1⟩, ⟨2, "Al", none, none, 1⟩]⟩ 1 "").Perm
      (([⟨1, "Bob", some "555", none, 1⟩, ⟨2, "Al", none, none, 1⟩].filter
        (fun c : Contact => c.user_id == 1)).map Contact.to_dict)) :=
  get_contacts_search_spec ⟨[⟨1, "Bob", some "555", none, 1⟩, ⟨2, "Al", none, none, 1⟩]⟩ 1 "b"
    (by decide) (by decide)

/-- C2 as stated is false at two inputs.  With search string `a_b` (whose
`_` is an unescaped `LIKE` metacharacter) the code returns a contact named
`axb` although `a_b` is not a substring of it.  With search string `Ä` and
a contact named `Äx`, Python lowers the term to `ä` but SQLite's folding is
ASCII-only, so the code returns nothing although the name contains `Ä`
verbatim and the specified subset is therefore non-empty. -/
theorem get_contacts_search_counterexample :
    (get_contacts ⟨[⟨1, "axb", none, none, 1⟩]⟩ 1 "a_b" = [⟨1, "axb", none, none⟩] ∧
      (get_contacts ⟨[⟨1, "axb", none, none, 1⟩]⟩ 1 "").filter (specMatches "a_b") = []) ∧
    (get_contacts ⟨[⟨1, "Äx", none, none, 1⟩]⟩ 1 "Ä" = [] ∧
      (get_contacts ⟨[⟨1, "Äx", none, none, 1⟩]⟩ 1 "").filter (specMatches "Ä") =
        [⟨1, "Äx", none, none⟩]) := by
  decide

end ContactApp
